import Mathlib

/-!
Shallow embedding of the fastly-edge-demo repository, centred on the
storage-adapter shim `SplitStorageWrapper.js` (Fastly Compute wrapper over
the Fastly KV Store), the HTTP-API wrapper inside `sync-to-kv.js`
(`createFastlyKVWrapper`), the request router of the compute service
(`src/index.js`), and the sync script's exit-code logic.

Modelling conventions:
* JavaScript values that flow through the shim are modelled by the inductive
  type `JsVal` (JSON values plus the JS float value `NaN`, which matters
  because `JSON.stringify(NaN)` serialises to `null`).  JS numbers are
  modelled as integers; no claim exercises non-integral arithmetic.
* The KV store backend is a state `KVState`: an association list of parsed
  stored values, per-operation failure switches modelling a raising backend
  primitive (a network/store error, or the handle being absent), a `present`
  flag modelling whether the wrapper was constructed with a store handle at
  all, and the `console.error` log.
* JS functions that may throw are embedded as `Except String`-valued
  functions; a `try/catch` in the source becomes a `match` on the
  `Except` result of the guarded body.
* `===`/`SameValueZero` element comparison (`Array.includes`, `new Set`) is
  modelled by structural equality on `JsVal`; the SDK only stores strings in
  these sets, for which the two agree.
-/

inductive JsVal where
  | null
  | bool (b : Bool)
  | num (n : Int)
  | nan
  | str (s : String)
  | arr (elems : List JsVal)
  | obj (fields : List (String × JsVal))

mutual

/-- Structural Boolean equality on `JsVal` (agrees with JS `===` on
primitive values, which are the only values the SDK compares). -/
def JsVal.beq : JsVal → JsVal → Bool
  | .null, .null => true
  | .bool a, .bool b => a == b
  | .num a, .num b => a == b
  | .nan, .nan => true
  | .str a, .str b => a == b
  | .arr a, .arr b => JsVal.beqList a b
  | .obj a, .obj b => JsVal.beqFields a b
  | _, _ => false

def JsVal.beqList : List JsVal → List JsVal → Bool
  | [], [] => true
  | x :: xs, y :: ys => JsVal.beq x y && JsVal.beqList xs ys
  | _, _ => false

def JsVal.beqFields : List (String × JsVal) → List (String × JsVal) → Bool
  | [], [] => true
  | (k, v) :: xs, (k2, v2) :: ys => k == k2 && JsVal.beq v v2 && JsVal.beqFields xs ys
  | _, _ => false

end

mutual

theorem JsVal.beq_iff_eq : ∀ a b : JsVal, JsVal.beq a b = true ↔ a = b
  | .null, .null => by simp [JsVal.beq]
  | .null, .bool _ => by simp [JsVal.beq]
  | .null, .num _ => by simp [JsVal.beq]
  | .null, .nan => by simp [JsVal.beq]
  | .null, .str _ => by simp [JsVal.beq]
  | .null, .arr _ => by simp [JsVal.beq]
  | .null, .obj _ => by simp [JsVal.beq]
  | .bool _, .null => by simp [JsVal.beq]
  | .bool _, .bool _ => by simp [JsVal.beq]
  | .bool _, .num _ => by simp [JsVal.beq]
  | .bool _, .nan => by simp [JsVal.beq]
  | .bool _, .str _ => by simp [JsVal.beq]
  | .bool _, .arr _ => by simp [JsVal.beq]
  | .bool _, .obj _ => by simp [JsVal.beq]
  | .num _, .null => by simp [JsVal.beq]
  | .num _, .bool _ => by simp [JsVal.beq]
  | .num _, .num _ => by simp [JsVal.beq]
  | .num _, .nan => by simp [JsVal.beq]
  | .num _, .str _ => by simp [JsVal.beq]
  | .num _, .arr _ => by simp [JsVal.beq]
  | .num _, .obj _ => by simp [JsVal.beq]
  | .nan, .null => by simp [JsVal.beq]
  | .nan, .bool _ => by simp [JsVal.beq]
  | .nan, .num _ => by simp [JsVal.beq]
  | .nan, .nan => by simp [JsVal.beq]
  | .nan, .str _ => by simp [JsVal.beq]
  | .nan, .arr _ => by simp [JsVal.beq]
  | .nan, .obj _ => by simp [JsVal.beq]
  | .str _, .null => by simp [JsVal.beq]
  | .str _, .bool _ => by simp [JsVal.beq]
  | .str _, .num _ => by simp [JsVal.beq]
  | .str _, .nan => by simp [JsVal.beq]
  | .str _, .str _ => by simp [JsVal.beq]
  | .str _, .arr _ => by simp [JsVal.beq]
  | .str _, .obj _ => by simp [JsVal.beq]
  | .arr _, .null => by simp [JsVal.beq]
  | .arr _, .bool _ => by simp [JsVal.beq]
  | .arr _, .num _ => by simp [JsVal.beq]
  | .arr _, .nan => by simp [JsVal.beq]
  | .arr _, .str _ => by simp [JsVal.beq]
  | .arr a, .arr b => by simp [JsVal.beq, JsVal.beqList_iff_eq a b]
  | .arr _, .obj _ => by simp [JsVal.beq]
  | .obj _, .null => by simp [JsVal.beq]
  | .obj _, .bool _ => by simp [JsVal.beq]
  | .obj _, .num _ => by simp [JsVal.beq]
  | .obj _, .nan => by simp [JsVal.beq]
  | .obj _, .str _ => by simp [JsVal.beq]
  | .obj _, .arr _ => by simp [JsVal.beq]
  | .obj a, .obj b => by simp [JsVal.beq, JsVal.beqFields_iff_eq a b]

theorem JsVal.beqList_iff_eq : ∀ a b : List JsVal, JsVal.beqList a b = true ↔ a = b
  | [], [] => by simp [JsVal.beqList]
  | [], _ :: _ => by simp [JsVal.beqList]
  | _ :: _, [] => by simp [JsVal.beqList]
  | x :: xs, y :: ys => by
    simp [JsVal.beqList, JsVal.beq_iff_eq x y, JsVal.beqList_iff_eq xs ys]

theorem JsVal.beqFields_iff_eq : ∀ a b : List (String × JsVal), JsVal.beqFields a b = true ↔ a = b
  | [], [] => by simp [JsVal.beqFields]
  | [], _ :: _ => by simp [JsVal.beqFields]
  | _ :: _, [] => by simp [JsVal.beqFields]
  | (k, v) :: xs, (k2, v2) :: ys => by
    simp [JsVal.beqFields, JsVal.beq_iff_eq v v2, JsVal.beqFields_iff_eq xs ys, and_assoc]

end

instance : DecidableEq JsVal := fun a b => decidable_of_iff _ (JsVal.beq_iff_eq a b)

/-- JS truthiness of a value (`Boolean(v)`): `null`, `false`, `0`, `NaN` and
the empty string are falsy; every array and object is truthy. -/
def jsTruthy : JsVal → Bool
  | .null => false
  | .bool b => b
  | .num n => n != 0
  | .nan => false
  | .str s => s != ""
  | .arr _ => true
  | .obj _ => true

mutual

/-- `JSON.parse(JSON.stringify v)`: the serialisation round trip performed by
`setValue` (which stores `JSON.stringify(value)`) followed by `getValue`
(which parses the stored text).  On JSON data it is the identity; the JS
float value `NaN` serialises to `null`. -/
def jsonRoundTrip : JsVal → JsVal
  | .null => .null
  | .bool b => .bool b
  | .num n => .num n
  | .nan => .null
  | .str s => .str s
  | .arr l => .arr (jsonRoundTripList l)
  | .obj fs => .obj (jsonRoundTripFields fs)

def jsonRoundTripList : List JsVal → List JsVal
  | [] => []
  | x :: xs => jsonRoundTrip x :: jsonRoundTripList xs

def jsonRoundTripFields : List (String × JsVal) → List (String × JsVal)
  | [] => []
  | (k, v) :: xs => (k, jsonRoundTrip v) :: jsonRoundTripFields xs

end

mutual

/-- JS `String(v)` coercion (`Array.prototype.toString` joins with commas and
renders `null` elements as the empty string; objects render as
`[object Object]`). -/
def jsToString : JsVal → String
  | .null => "null"
  | .bool b => if b then "true" else "false"
  | .num n => toString n
  | .nan => "NaN"
  | .str s => s
  | .arr l => jsArrToString l
  | .obj _ => "[object Object]"

def jsArrToString : List JsVal → String
  | [] => ""
  | [JsVal.null] => ""
  | [x] => jsToString x
  | JsVal.null :: xs => "," ++ jsArrToString xs
  | x :: xs => jsToString x ++ "," ++ jsArrToString xs

end

/-- JS `Number(s)` on a string, restricted to integer literals (the demo only
stores integer counters): surrounding whitespace is trimmed, the empty string
converts to `0`, an optional sign followed by digits converts to the integer,
anything else is `NaN` (`none`). -/
def strToNumber (s : String) : Option Int :=
  let t := s.trim
  if t = "" then some 0
  else
    let signAndDigits : Int × List Char :=
      match t.toList with
      | '-' :: rest => (-1, rest)
      | '+' :: rest => (1, rest)
      | cs => (1, cs)
    if signAndDigits.2 = [] then none
    else if signAndDigits.2.all Char.isDigit then
      some (signAndDigits.1 *
        (signAndDigits.2.foldl (fun a c => a * 10 + (c.toNat - 48)) 0 : Nat))
    else none

/-- JS `Number(v)` coercion; `none` stands for `NaN`. -/
def jsToNumber : JsVal → Option Int
  | .null => some 0
  | .bool b => some (if b then 1 else 0)
  | .num n => some n
  | .nan => none
  | .str s => strToNumber s
  | .arr l => strToNumber (jsArrToString l)
  | .obj _ => none

/-- JS `a + n` for a number `n`: strings, arrays and objects concatenate via
string coercion, other values add numerically. -/
def jsAdd (a : JsVal) (n : Int) : JsVal :=
  match a with
  | .num m => .num (m + n)
  | .bool b => .num ((if b then 1 else 0) + n)
  | .null => .num n
  | .nan => .nan
  | .str s => .str (s ++ toString n)
  | .arr l => .str (jsToString (.arr l) ++ toString n)
  | .obj fs => .str (jsToString (.obj fs) ++ toString n)

/-- JS `a - n` for a number `n`: both operands coerce to numbers, `NaN`
propagates. -/
def jsSub (a : JsVal) (n : Int) : JsVal :=
  match jsToNumber a with
  | some m => .num (m - n)
  | none => .nan

/-- JS `v || 0` as used by `incr`/`decr`: a falsy current value is replaced
by `0`. -/
def jsOrZero (v : JsVal) : JsVal :=
  if jsTruthy v then v else .num 0

/-- JS spread `[...v]`: arrays spread to their elements, strings to their
characters, and every other value throws `TypeError: v is not iterable`. -/
def jsSpread : JsVal → Except String (List JsVal)
  | .arr l => .ok l
  | .str s => .ok (s.toList.map (fun c => JsVal.str c.toString))
  | _ => .error "value is not iterable"

/-- First-occurrence deduplication with an explicit seen accumulator:
the semantics of `[...new Set(l)]` (JS `Set` keeps insertion order and drops
later duplicates). -/
def dedupFirstAux {α : Type} [DecidableEq α] (seen : List α) : List α → List α
  | [] => []
  | x :: xs => if x ∈ seen then dedupFirstAux seen xs else x :: dedupFirstAux (x :: seen) xs

/-- `[...new Set(l)]`. -/
def dedupFirst {α : Type} [DecidableEq α] (l : List α) : List α :=
  dedupFirstAux [] l

/-! ## The key-value store backend -/

/-- Association-list lookup (first binding wins), keyed by strings. -/
def alGet : List (String × JsVal) → String → Option JsVal
  | [], _ => none
  | (k2, v) :: rest, k => if k2 = k then some v else alGet rest k

/-- Association-list update: replace the existing binding in place, or append
a fresh binding at the end. -/
def alSet : List (String × JsVal) → String → JsVal → List (String × JsVal)
  | [], k, v => [(k, v)]
  | (k2, v2) :: rest, k, v =>
    if k2 = k then (k, v) :: rest else (k2, v2) :: alSet rest k v

/-- Association-list deletion of every binding for a key. -/
def alDel : List (String × JsVal) → String → List (String × JsVal)
  | [], _ => []
  | (k2, v2) :: rest, k => if k2 = k then alDel rest k else (k2, v2) :: alDel rest k

/-- State of the key-value store backend as seen by either wrapper.
`data` holds the parsed stored JSON values (values are written exclusively as
`JSON.stringify` of some JS value, which never produces empty or invalid
text).  The `fail…` switches model the backing primitive raising (a store or
network error) on the given key; `present` models the JS truthiness of the
store handle the wrapper was constructed over (a missing handle makes every
primitive call throw a `TypeError`).  `log` collects `console.error`
messages. -/
structure KVState where
  data : List (String × JsVal)
  failGet : String → Bool
  failPut : String → Bool
  failDel : String → Bool
  failList : Bool
  present : Bool
  log : List String

/-- Append a `console.error` message. -/
def pushLog (st : KVState) (msg : String) : KVState :=
  { st with log := st.log ++ [msg] }

/-- A store whose primitives all succeed. -/
def okState (data : List (String × JsVal)) (logs : List String) : KVState :=
  ⟨data, fun _ => false, fun _ => false, fun _ => false, false, true, logs⟩

/-- A store handle that is present but whose every primitive raises. -/
def allFailState (data : List (String × JsVal)) (logs : List String) : KVState :=
  ⟨data, fun _ => true, fun _ => true, fun _ => true, true, true, logs⟩

/-- A wrapper constructed without a store handle: `connect` checks the handle
itself, and every primitive call on the missing handle throws. -/
def noStoreState : KVState :=
  ⟨[], fun _ => false, fun _ => false, fun _ => false, false, false, []⟩

/-- Backend primitive `kvStore.get(key)` (entry fetch plus `entry.text()`):
returns the stored entry, `none` when the key is absent, and raises on
failure or when the handle is missing. -/
def kvGet (st : KVState) (key : String) : Except String (Option JsVal) :=
  if st.present && !st.failGet key then .ok (alGet st.data key)
  else .error ("kv get failed on " ++ key)

/-- Backend primitive `kvStore.put(key, text)`. -/
def kvPut (st : KVState) (key : String) (v : JsVal) : Except String KVState :=
  if st.present && !st.failPut key then .ok { st with data := alSet st.data key v }
  else .error ("kv put failed on " ++ key)

/-- Backend primitive `kvStore.delete(key)`. -/
def kvDelete (st : KVState) (key : String) : Except String KVState :=
  if st.present && !st.failDel key then .ok { st with data := alDel st.data key }
  else .error ("kv delete failed on " ++ key)

/-- Backend primitive `kvStore.list(...)`: the stored keys, optionally
filtered to those starting with a prefix string and truncated to a limit.
(The `.list` field of the result object is always supplied by the store
API; the wrapper's `result.list || []` fallback is therefore not a separate
state.) -/
def kvList (st : KVState) (pre : Option String) (limit : Option Nat) :
    Except String (List String) :=
  if st.present && !st.failList then
    let keys := st.data.map Prod.fst
    let keys :=
      match pre with
      | some p => keys.filter (fun k => String.isPrefixOf p k)
      | none => keys
    .ok (match limit with | some n => keys.take n | none => keys)
  else .error "kv list failed"

/-! ## The Fastly Compute storage shim (`src/SplitStorageWrapper.js`)

Each operation of the shim is embedded as an `Except String`-valued function:
a JS operation that throws is an `.error`, one that completes normally is an
`.ok` carrying its return value and the store state after it. -/

namespace SplitStorageWrapper

/-- `getValue` helper: fetch, read and `JSON.parse` the entry inside a
`try/catch`; an absent entry and a caught error both yield `null`. -/
def getValue (st : KVState) (key : String) : JsVal × KVState :=
  match kvGet st key with
  | .ok none => (JsVal.null, st)
  | .ok (some v) => (v, st)
  | .error e => (JsVal.null, pushLog st ("Error getting key " ++ key ++ ": " ++ e))

/-- `setValue` helper: `kvStore.put(key, JSON.stringify(value))` inside a
`try/catch`; returns `true` on success and `false` on a caught error. -/
def setValue (st : KVState) (key : String) (value : JsVal) : Bool × KVState :=
  match kvPut st key (jsonRoundTrip value) with
  | .ok st2 => (true, st2)
  | .error e => (false, pushLog st ("Error setting key " ++ key ++ ": " ++ e))

/-- `get(key)`. -/
def get (st : KVState) (key : String) : Except String (JsVal × KVState) :=
  .ok (getValue st key)

/-- `set(key, value)`. -/
def set (st : KVState) (key : String) (value : JsVal) : Except String (Bool × KVState) :=
  .ok (setValue st key value)

/-- `getAndSet(key, value)`: read the old value, write the new one, return
the old value.  No `try/catch` of its own, but both helpers catch
internally. -/
def getAndSet (st : KVState) (key : String) (value : JsVal) :
    Except String (JsVal × KVState) :=
  let r1 := getValue st key
  let r2 := setValue r1.2 key value
  .ok (r1.1, r2.2)

/-- `del(key)`: `kvStore.delete` inside a `try/catch`. -/
def del (st : KVState) (key : String) : Except String (Bool × KVState) :=
  match kvDelete st key with
  | .ok st2 => .ok (true, st2)
  | .error e => .ok (false, pushLog st ("Error deleting key " ++ key ++ ": " ++ e))

/-- `getKeysByPrefix(prefix)`: `kvStore.list({ prefix })` inside a
`try/catch`, returning `[]` on a caught error. -/
def getKeysByPrefix (st : KVState) (pre : String) : Except String (List String × KVState) :=
  match kvList st (some pre) none with
  | .ok keys => .ok (keys, st)
  | .error e =>
    .ok ([], pushLog st ("Error getting keys by prefix " ++ pre ++ ": " ++ e))

/-- `getMany(keys)`: `Promise.all(keys.map(key => getValue(key)))`.  The
parallel reads are independent (no read mutates `data`), so the result list
is the per-key read against the entry state and the final state just
accumulates the logs of the failed reads; the operation's own `catch` is
unreachable because `getValue` never throws. -/
def getMany (st : KVState) (keys : List String) :
    Except String (List JsVal × KVState) :=
  .ok (keys.map (fun k => (getValue st k).1),
       keys.foldl (fun s k => (getValue s k).2) st)

/-- `incr(key, increment)`: read the current value, add client-side
(`(current || 0) + increment`), write back, return the new value.  The
surrounding `catch` (which would return the bare increment) is unreachable
because the helpers never throw. -/
def incr (st : KVState) (key : String) (n : Int) : Except String (JsVal × KVState) :=
  let r1 := getValue st key
  let newValue := jsAdd (jsOrZero r1.1) n
  let r2 := setValue r1.2 key newValue
  .ok (newValue, r2.2)

/-- `decr(key, decrement)`: like `incr` with JS subtraction. -/
def decr (st : KVState) (key : String) (n : Int) : Except String (JsVal × KVState) :=
  let r1 := getValue st key
  let newValue := jsSub (jsOrZero r1.1) n
  let r2 := setValue r1.2 key newValue
  .ok (newValue, r2.2)

/-- `itemContains(key, item)`: `set && Array.isArray(set) ? set.includes(item) : false`. -/
def itemContains (st : KVState) (key : String) (item : JsVal) :
    Except String (Bool × KVState) :=
  let r1 := getValue st key
  match r1.1 with
  | .arr l => .ok (decide (item ∈ l), r1.2)
  | _ => .ok (false, r1.2)

/-- `addItems(key, items)`: read `getValue(key) || []`, build
`[...new Set([...set, ...items])]` and write it back.  Spreading a truthy
non-iterable stored value (a number, boolean or object) throws, and that
throw is caught by the operation's own `catch`. -/
def addItems (st : KVState) (key : String) (items : List JsVal) :
    Except String (Unit × KVState) :=
  let r1 := getValue st key
  let base := if jsTruthy r1.1 then r1.1 else .arr []
  match jsSpread base with
  | .ok l =>
    let r2 := setValue r1.2 key (.arr (dedupFirst (l ++ items)))
    .ok ((), r2.2)
  | .error e =>
    .ok ((), pushLog r1.2 ("Error adding items to set " ++ key ++ ": " ++ e))

/-- `removeItems(key, items)`: when the stored value is an array, filter out
the given items and write back; otherwise do nothing. -/
def removeItems (st : KVState) (key : String) (items : List JsVal) :
    Except String (Unit × KVState) :=
  let r1 := getValue st key
  match r1.1 with
  | .arr l =>
    let r2 := setValue r1.2 key (.arr (l.filter (fun x => !(decide (x ∈ items)))))
    .ok ((), r2.2)
  | _ => .ok ((), r1.2)

/-- `getItems(key)`: the stored array, or `[]` when the stored value is
absent or not an array. -/
def getItems (st : KVState) (key : String) : Except String (List JsVal × KVState) :=
  let r1 := getValue st key
  match r1.1 with
  | .arr l => .ok (l, r1.2)
  | _ => .ok ([], r1.2)

/-- `connect()`: `if (!kvStore) throw new Error("KV Store not provided")`. -/
def connect (st : KVState) : Except String (Unit × KVState) :=
  if st.present then .ok ((), st) else .error "KV Store not provided"

/-- `disconnect()`: no-op. -/
def disconnect (st : KVState) : Except String (Unit × KVState) :=
  .ok ((), st)

/-- `pushItems(key, items)`: no-op (not needed in consumer mode). -/
def pushItems (st : KVState) (_key : String) (_items : List JsVal) :
    Except String (Unit × KVState) :=
  .ok ((), st)

/-- `popItems(key, count)`: no-op returning `[]`. -/
def popItems (st : KVState) (_key : String) (_count : Nat) :
    Except String (List JsVal × KVState) :=
  .ok (([] : List JsVal), st)

/-- `getItemsCount(key)`: no-op returning `0`. -/
def getItemsCount (st : KVState) (_key : String) : Except String (Nat × KVState) :=
  .ok ((0 : Nat), st)

end SplitStorageWrapper

/-! ## The sync script's HTTP-API storage wrapper
(`createFastlyKVWrapper` in `sync-to-kv.js`)

Same storage contract implemented over the Fastly HTTP API with `fetch`.
A 404 response models an absent key; a non-OK response is thrown and caught
inside `getValue`/`setValue`/`del`.  The operations below are the ones the
claims compare across the two adapters; unlike the compute shim, the numeric
and set operations here have no `try/catch` of their own (their helpers
still catch). -/

namespace createFastlyKVWrapper

/-- `getValue`: `fetch` of the key URL; 404 yields `null`, a non-OK status
throws and is caught, the body text is `JSON.parse`d. -/
def getValue (st : KVState) (key : String) : JsVal × KVState :=
  match kvGet st key with
  | .ok none => (JsVal.null, st)
  | .ok (some v) => (v, st)
  | .error e => (JsVal.null, pushLog st ("Error getting key " ++ key ++ ": " ++ e))

/-- `setValue`: `PUT` of `JSON.stringify(value)`; a non-OK status throws and
is caught, returning `false`. -/
def setValue (st : KVState) (key : String) (value : JsVal) : Bool × KVState :=
  match kvPut st key (jsonRoundTrip value) with
  | .ok st2 => (true, st2)
  | .error e => (false, pushLog st ("Error setting key " ++ key ++ ": " ++ e))

/-- `getMany(keys)`: `Promise.all(keys.map(key => getValue(key)))`, no
`try/catch` (none is needed, `getValue` never throws). -/
def getMany (st : KVState) (keys : List String) :
    Except String (List JsVal × KVState) :=
  .ok (keys.map (fun k => (getValue st k).1),
       keys.foldl (fun s k => (getValue s k).2) st)

/-- `incr(key, increment)`: `(current || 0) + increment`, written back. -/
def incr (st : KVState) (key : String) (n : Int) : Except String (JsVal × KVState) :=
  let r1 := getValue st key
  let newValue := jsAdd (jsOrZero r1.1) n
  let r2 := setValue r1.2 key newValue
  .ok (newValue, r2.2)

/-- `decr(key, decrement)`: `(current || 0) - decrement`, written back. -/
def decr (st : KVState) (key : String) (n : Int) : Except String (JsVal × KVState) :=
  let r1 := getValue st key
  let newValue := jsSub (jsOrZero r1.1) n
  let r2 := setValue r1.2 key newValue
  .ok (newValue, r2.2)

/-- `pushItems(key, items)`: no-op (not needed for synchronization). -/
def pushItems (st : KVState) (_key : String) (_items : List JsVal) :
    Except String (Unit × KVState) :=
  .ok ((), st)

/-- `popItems(key, count)`: no-op returning `[]`. -/
def popItems (st : KVState) (_key : String) (_count : Nat) :
    Except String (List JsVal × KVState) :=
  .ok (([] : List JsVal), st)

/-- `getItemsCount(key)`: no-op returning `0`. -/
def getItemsCount (st : KVState) (_key : String) : Except String (Nat × KVState) :=
  .ok ((0 : Nat), st)

end createFastlyKVWrapper

/-! ## The compute service's request handler (`src/index.js`) -/

/-- The configuration produced by `getConfig()` in `src/config.js`. -/
structure Config where
  SPLIT_SDK_KEY : String
  FEATURE_FLAG_NAME : String
  KV_STORE_NAME : String
  DEFAULT_USER_KEY : String

/-- An HTTP response: status, content type and body. -/
structure Response where
  status : Nat
  contentType : String
  body : String
deriving DecidableEq

/-- JS `searchParams.get(name) || fallbackString`: an absent or empty query
parameter falls back. -/
def jsOrStr (o : Option String) (d : String) : String :=
  match o with
  | some s => if s = "" then d else s
  | none => d

/-- The home page: a static HTML instructions page (its markup carries no
specified behaviour and is abbreviated here). -/
def homeHtml (cfg : Config) : String :=
  "Fastly Compute + Harness FME Demo; flag " ++ cfg.FEATURE_FLAG_NAME ++
  "; store " ++ cfg.KV_STORE_NAME

/-- `handleHomePage`. -/
def handleHomePage (cfg : Config) : Response :=
  ⟨200, "text/html; charset=utf-8", homeHtml cfg⟩

/-- The treatment result page (markup abbreviated). -/
def treatmentHtml (key flagName treatment : String) : String :=
  "User " ++ key ++ "; flag " ++ flagName ++ "; treatment " ++ treatment

/-- `handleGetTreatment`: resolve the user key and flag name from the query
with config defaults, reject an unconfigured SDK key with a 500, then
evaluate the flag.  The evaluation itself lives in the external Harness FME
SDK and enters the model as the parameter `sdkEval` (`.ok treatment` when the
SDK returns a treatment string, `.error` when it throws). -/
def handleGetTreatment (cfg : Config) (queryKey queryFlag : Option String)
    (sdkEval : Except String String) : Response :=
  let key := jsOrStr queryKey cfg.DEFAULT_USER_KEY
  let flagName := jsOrStr queryFlag cfg.FEATURE_FLAG_NAME
  if key = "" then
    ⟨400, "text/plain", "Error: No user key provided"⟩
  else if String.startsWith cfg.SPLIT_SDK_KEY "<YOUR" then
    ⟨500, "text/plain", "Error: Harness FME SDK key not configured"⟩
  else
    match sdkEval with
    | .ok treatment => ⟨200, "text/html; charset=utf-8", treatmentHtml key flagName treatment⟩
    | .error e => ⟨500, "text/plain", "Error evaluating feature flag: " ++ e⟩

/-- The keys accumulated by `handleStatus` from `kvStore.list({ limit: 10 })`
(`[]` when listing throws, in which case the handler answers 500). -/
def statusKeys (st : KVState) : List String :=
  match kvList st none (some 10) with
  | .ok keys => keys
  | .error _ => []

/-- The status page markup (abbreviated to the data it shows). -/
def statusHtml (cfg : Config) (keys : List String) : String :=
  "KV Store " ++ cfg.KV_STORE_NAME ++ "; keys found " ++ toString keys.length ++
  "; " ++ String.intercalate "," keys

/-- `handleStatus`: list up to 10 keys inside a `try/catch`; a caught error
answers 500. -/
def handleStatus (cfg : Config) (st : KVState) : Response :=
  match kvList st none (some 10) with
  | .ok keys => ⟨200, "text/html; charset=utf-8", statusHtml cfg keys⟩
  | .error e => ⟨500, "text/plain", "Error checking status: " ++ e⟩

/-- `handleRequest`: construct the KV store handle (500 when the named store
does not exist, modelled by `kvAvailable`), then route on the URL path;
unmatched paths answer 404 `Not found`. -/
def handleRequest (cfg : Config) (kvAvailable : Bool) (st : KVState) (path : String)
    (queryKey queryFlag : Option String) (sdkEval : Except String String) : Response :=
  if !kvAvailable then
    ⟨500, "text/plain", "Error: KV Store " ++ cfg.KV_STORE_NAME ++ " not found"⟩
  else if path = "/" then handleHomePage cfg
  else if path = "/get-treatment" then handleGetTreatment cfg queryKey queryFlag sdkEval
  else if path = "/status" then handleStatus cfg st
  else ⟨404, "text/plain", "Not found"⟩

/-! ## The sync script's process boundary (`sync-to-kv.js`) -/

/-- JS truthiness of an environment variable (`process.env.X` is `undefined`
when unset; the empty string is falsy). -/
def envPresent : Option String → Bool
  | some s => s != ""
  | none => false

/-- The sync script's exit code: `process.exit(1)` when any of the three
required environment variables is missing, otherwise run the synchronizer
(an external collaborator, entering the model as `execResult`) and exit 0 on
success, 1 on a rejected synchronization. -/
def syncMain (tok sdk store : Option String) (execResult : Except String Unit) : Nat :=
  if !(envPresent tok && envPresent sdk && envPresent store) then 1
  else
    match execResult with
    | .ok _ => 0
    | .error _ => 1

/-! ## Supporting lemmas -/

theorem alGet_alSet_self (l : List (String × JsVal)) (k : String) (v : JsVal) :
    alGet (alSet l k v) k = some v := by
  induction l with
  | nil => simp [alSet, alGet]
  | cons hd tl ih =>
    obtain ⟨k2, v2⟩ := hd
    by_cases h : k2 = k
    · simp [alSet, alGet, h]
    · simp [alSet, alGet, h, ih]

theorem alGet_alDel_self (l : List (String × JsVal)) (k : String) :
    alGet (alDel l k) k = none := by
  induction l with
  | nil => simp [alDel, alGet]
  | cons hd tl ih =>
    obtain ⟨k2, v2⟩ := hd
    by_cases h : k2 = k
    · simp [alDel, h, ih]
    · simp [alDel, alGet, h, ih]

theorem mem_dedupFirstAux {α : Type} [DecidableEq α] (seen : List α) (l : List α) (x : α) :
    x ∈ dedupFirstAux seen l ↔ x ∈ l ∧ x ∉ seen := by
  induction l generalizing seen with
  | nil => simp [dedupFirstAux]
  | cons y ys ih =>
    by_cases hy : y ∈ seen
    · simp only [dedupFirstAux, if_pos hy, ih seen, List.mem_cons]
      constructor
      · rintro ⟨h1, h2⟩
        exact ⟨Or.inr h1, h2⟩
      · rintro ⟨h1 | h1, h2⟩
        · exact absurd (h1 ▸ hy) h2
        · exact ⟨h1, h2⟩
    · simp only [dedupFirstAux, if_neg hy, List.mem_cons, ih (y :: seen)]
      constructor
      · rintro (rfl | ⟨h1, h2⟩)
        · exact ⟨Or.inl rfl, hy⟩
        · exact ⟨Or.inr h1, fun hc => h2 (Or.inr hc)⟩
      · rintro ⟨h1 | h1, h2⟩
        · exact Or.inl h1
        · by_cases hxy : x = y
          · exact Or.inl hxy
          · exact Or.inr ⟨h1, fun hc => hc.elim hxy h2⟩

theorem mem_dedupFirst {α : Type} [DecidableEq α] (l : List α) (x : α) :
    x ∈ dedupFirst l ↔ x ∈ l := by
  simp [dedupFirst, mem_dedupFirstAux]

theorem nodup_dedupFirstAux {α : Type} [DecidableEq α] (seen : List α) (l : List α) :
    (dedupFirstAux seen l).Nodup := by
  induction l generalizing seen with
  | nil => simp [dedupFirstAux]
  | cons y ys ih =>
    by_cases hy : y ∈ seen
    · simpa [dedupFirstAux, if_pos hy] using ih seen
    · simp only [dedupFirstAux, if_neg hy, List.nodup_cons, mem_dedupFirstAux]
      exact ⟨fun h => h.2 (List.mem_cons_self y seen), ih (y :: seen)⟩

theorem nodup_dedupFirst {α : Type} [DecidableEq α] (l : List α) :
    (dedupFirst l).Nodup :=
  nodup_dedupFirstAux [] l

theorem dedupFirstAux_eq_nil {α : Type} [DecidableEq α] (seen : List α) (l : List α)
    (h : ∀ x ∈ l, x ∈ seen) : dedupFirstAux seen l = [] := by
  induction l with
  | nil => rfl
  | cons y ys ih =>
    have hy : y ∈ seen := h y (List.mem_cons_self y ys)
    simp only [dedupFirstAux, if_pos hy]
    exact ih (fun x hx => h x (List.mem_cons_of_mem y hx))

theorem dedupFirstAux_append_subsumed {α : Type} [DecidableEq α]
    (l1 : List α) (seen l2 : List α) (h : ∀ x ∈ l2, x ∈ seen ∨ x ∈ l1) :
    dedupFirstAux seen (l1 ++ l2) = dedupFirstAux seen l1 := by
  induction l1 generalizing seen with
  | nil =>
    simp only [List.nil_append, dedupFirstAux]
    exact dedupFirstAux_eq_nil seen l2 (fun x hx => (h x hx).elim id (by simp))
  | cons y ys ih =>
    by_cases hy : y ∈ seen
    · simp only [List.cons_append, dedupFirstAux, if_pos hy]
      refine ih seen (fun x hx => ?_)
      rcases h x hx with h2 | h2
      · exact Or.inl h2
      · rcases List.mem_cons.mp h2 with rfl | h3
        · exact Or.inl hy
        · exact Or.inr h3
    · simp only [List.cons_append, dedupFirstAux, if_neg hy]
      refine congrArg (y :: ·) (ih (y :: seen) (fun x hx => ?_))
      rcases h x hx with h2 | h2
      · exact Or.inl (List.mem_cons_of_mem y h2)
      · rcases List.mem_cons.mp h2 with rfl | h3
        · exact Or.inl (List.mem_cons_self x seen)
        · exact Or.inr h3

theorem dedupFirstAux_eq_self {α : Type} [DecidableEq α] (l : List α) (seen : List α)
    (hnd : l.Nodup) (hdisj : ∀ x ∈ l, x ∉ seen) : dedupFirstAux seen l = l := by
  induction l generalizing seen with
  | nil => rfl
  | cons y ys ih =>
    have hy : y ∉ seen := hdisj y (List.mem_cons_self y ys)
    simp only [dedupFirstAux, if_neg hy]
    rcases List.nodup_cons.mp hnd with ⟨hyn, hysn⟩
    refine congrArg (y :: ·) (ih (y :: seen) hysn (fun x hx => ?_))
    intro hc
    rcases List.mem_cons.mp hc with rfl | h3
    · exact hyn hx
    · exact hdisj x (List.mem_cons_of_mem y hx) h3

/-- Repeating `[...new Set(d ++ items)]` on an already deduplicated `d`
containing every element of `items` is the identity. -/
theorem dedupFirst_append_of_subset {α : Type} [DecidableEq α] (d items : List α)
    (hnd : d.Nodup) (hsub : ∀ x ∈ items, x ∈ d) :
    dedupFirst (d ++ items) = d := by
  unfold dedupFirst
  rw [dedupFirstAux_append_subsumed d [] items (fun x hx => Or.inr (hsub x hx))]
  exact dedupFirstAux_eq_self d [] hnd (by simp)

theorem jsonRoundTripList_eq_of_pure (l : List JsVal)
    (h : ∀ x ∈ l, jsonRoundTrip x = x) : jsonRoundTripList l = l := by
  induction l with
  | nil => rfl
  | cons x xs ih =>
    simp only [jsonRoundTripList, h x (List.mem_cons_self x xs)]
    exact congrArg (x :: ·) (ih (fun y hy => h y (List.mem_cons_of_mem x hy)))

/-! ## Claim theorems -/

/-- C6: For every key, list of items, and count, the queue operations are
no-ops in both storage adapters: `pushItems` leaves the store completely
unchanged and returns nothing, `popItems` returns an empty list and leaves
the store unchanged, and `getItemsCount` returns `0`. -/
theorem queue_operations_noops (st : KVState) (k : String) (items : List JsVal) (cnt : Nat) :
    SplitStorageWrapper.pushItems st k items = .ok ((), st) ∧
    SplitStorageWrapper.popItems st k cnt = .ok ([], st) ∧
    SplitStorageWrapper.getItemsCount st k = .ok (0, st) ∧
    createFastlyKVWrapper.pushItems st k items = .ok ((), st) ∧
    createFastlyKVWrapper.popItems st k cnt = .ok ([], st) ∧
    createFastlyKVWrapper.getItemsCount st k = .ok (0, st) :=
  ⟨rfl, rfl, rfl, rfl, rfl, rfl⟩

/-- C7: For every key, `del(key)` followed by `get(key)` on a working store,
with no intervening writes, returns `null`. -/
theorem del_then_get_returns_null (data : List (String × JsVal)) (logs : List String)
    (k : String) :
    ∃ st2, SplitStorageWrapper.del (okState data logs) k = .ok (true, st2) ∧
      SplitStorageWrapper.get st2 k = .ok (JsVal.null, st2) := by
  refine ⟨{ okState data logs with data := alDel data k }, ?_, ?_⟩
  · simp [SplitStorageWrapper.del, kvDelete, okState]
  · simp [SplitStorageWrapper.get, SplitStorageWrapper.getValue, kvGet, okState,
      alGet_alDel_self]

/-- C2: For every key and value, `set(k, v)` then `get(k)` on a working
store with no intervening writes returns the JSON round-trip of `v`;
concretely, `set("k", obj [a ↦ 1])` then `get("k")` yields the same
object. -/
theorem set_then_get_returns_roundtrip (data : List (String × JsVal)) (logs : List String)
    (k : String) (v : JsVal) :
    (∃ st2, SplitStorageWrapper.set (okState data logs) k v = .ok (true, st2) ∧
      SplitStorageWrapper.get st2 k = .ok (jsonRoundTrip v, st2)) ∧
    (∃ st2, SplitStorageWrapper.set (okState [] []) "k" (.obj [("a", .num 1)]) =
        .ok (true, st2) ∧
      SplitStorageWrapper.get st2 "k" = .ok (.obj [("a", .num 1)], st2)) := by
  constructor
  · refine ⟨{ okState data logs with data := alSet data k (jsonRoundTrip v) }, ?_, ?_⟩
    · simp [SplitStorageWrapper.set, SplitStorageWrapper.setValue, kvPut, okState]
    · simp [SplitStorageWrapper.get, SplitStorageWrapper.getValue, kvGet, okState,
        alGet_alSet_self]
  · exact ⟨okState [("k", .obj [("a", .num 1)])] [], rfl, rfl⟩

/-- C4: For every absent key and every amount `n` (in particular every
positive one), `incr` initializes from zero, storing and returning `0 + n`,
and `decr` initializes from zero, storing and returning `0 - n`, in both the
Fastly Compute wrapper and the sync script's HTTP-API wrapper. -/
theorem incr_decr_initialize_from_zero (data : List (String × JsVal)) (logs : List String)
    (k : String) (n : Int) :
    (∃ st2, SplitStorageWrapper.incr (okState (alDel data k) logs) k n =
        .ok (.num (0 + n), st2) ∧ alGet st2.data k = some (.num (0 + n))) ∧
    (∃ st2, SplitStorageWrapper.decr (okState (alDel data k) logs) k n =
        .ok (.num (0 - n), st2) ∧ alGet st2.data k = some (.num (0 - n))) ∧
    (∃ st2, createFastlyKVWrapper.incr (okState (alDel data k) logs) k n =
        .ok (.num (0 + n), st2) ∧ alGet st2.data k = some (.num (0 + n))) ∧
    (∃ st2, createFastlyKVWrapper.decr (okState (alDel data k) logs) k n =
        .ok (.num (0 - n), st2) ∧ alGet st2.data k = some (.num (0 - n))) := by
  refine ⟨⟨{ okState (alDel data k) logs with data := alSet (alDel data k) k (.num (0 + n)) },
      ?_, ?_⟩,
    ⟨{ okState (alDel data k) logs with data := alSet (alDel data k) k (.num (0 - n)) },
      ?_, ?_⟩,
    ⟨{ okState (alDel data k) logs with data := alSet (alDel data k) k (.num (0 + n)) },
      ?_, ?_⟩,
    ⟨{ okState (alDel data k) logs with data := alSet (alDel data k) k (.num (0 - n)) },
      ?_, ?_⟩⟩
  · simp [SplitStorageWrapper.incr, SplitStorageWrapper.getValue, SplitStorageWrapper.setValue,
      kvGet, kvPut, okState, alGet_alDel_self, jsOrZero, jsTruthy, jsAdd, jsonRoundTrip]
  · simp [alGet_alSet_self]
  · simp [SplitStorageWrapper.decr, SplitStorageWrapper.getValue, SplitStorageWrapper.setValue,
      kvGet, kvPut, okState, alGet_alDel_self, jsOrZero, jsTruthy, jsSub, jsToNumber,
      jsonRoundTrip]
  · simp [alGet_alSet_self]
  · simp [createFastlyKVWrapper.incr, createFastlyKVWrapper.getValue,
      createFastlyKVWrapper.setValue, kvGet, kvPut, okState, alGet_alDel_self, jsOrZero,
      jsTruthy, jsAdd, jsonRoundTrip]
  · simp [alGet_alSet_self]
  · simp [createFastlyKVWrapper.decr, createFastlyKVWrapper.getValue,
      createFastlyKVWrapper.setValue, kvGet, kvPut, okState, alGet_alDel_self, jsOrZero,
      jsTruthy, jsSub, jsToNumber, jsonRoundTrip]
  · simp [alGet_alSet_self]

/-- `Array.isArray(v)`. -/
def JsVal.isArr : JsVal → Bool
  | .arr _ => true
  | _ => false

/-- C10: For every key whose stored JSON value is not an array,
`itemContains` returns `false` for every item, `getItems` returns an empty
list, and `removeItems` leaves the store unchanged; none of these operations
raise or corrupt the stored value. -/
theorem non_array_stored_value_safe (data : List (String × JsVal)) (logs : List String)
    (k : String) (v item : JsVal) (items : List JsVal) (hv : v.isArr = false) :
    SplitStorageWrapper.itemContains (okState (alSet data k v) logs) k item =
      .ok (false, okState (alSet data k v) logs) ∧
    SplitStorageWrapper.getItems (okState (alSet data k v) logs) k =
      .ok ([], okState (alSet data k v) logs) ∧
    SplitStorageWrapper.removeItems (okState (alSet data k v) logs) k items =
      .ok ((), okState (alSet data k v) logs) := by
  have hget : SplitStorageWrapper.getValue (okState (alSet data k v) logs) k =
      (v, okState (alSet data k v) logs) := by
    simp [SplitStorageWrapper.getValue, kvGet, okState, alGet_alSet_self]
  refine ⟨?_, ?_, ?_⟩
  · unfold SplitStorageWrapper.itemContains
    rw [hget]
    cases v <;> simp_all [JsVal.isArr]
  · unfold SplitStorageWrapper.getItems
    rw [hget]
    cases v <;> simp_all [JsVal.isArr]
  · unfold SplitStorageWrapper.removeItems
    rw [hget]
    cases v <;> simp_all [JsVal.isArr]

/-- Witness for C10 at a concrete non-array stored value. -/
theorem non_array_stored_value_safe_witness :
    SplitStorageWrapper.itemContains (okState (alSet [] "k" (.num 5)) []) "k" (.str "x") =
      .ok (false, okState (alSet [] "k" (.num 5)) []) ∧
    SplitStorageWrapper.getItems (okState (alSet [] "k" (.num 5)) []) "k" =
      .ok ([], okState (alSet [] "k" (.num 5)) []) ∧
    SplitStorageWrapper.removeItems (okState (alSet [] "k" (.num 5)) []) "k" [.str "x"] =
      .ok ((), okState (alSet [] "k" (.num 5)) []) :=
  non_array_stored_value_safe [] [] "k" (.num 5) (.str "x") [.str "x"] rfl

/-- C9: The sync script exits 1 when any of its three required environment
inputs (API token, SDK key, KV store identifier) is missing, exits 0 when
all are present and the synchronization succeeds, and exits 1 when it
fails. -/
theorem sync_script_exit_codes (tok sdk store : Option String) (r : Except String Unit) :
    (envPresent tok = false ∨ envPresent sdk = false ∨ envPresent store = false →
      syncMain tok sdk store r = 1) ∧
    (envPresent tok = true → envPresent sdk = true → envPresent store = true →
      r = .ok () → syncMain tok sdk store r = 0) ∧
    (envPresent tok = true → envPresent sdk = true → envPresent store = true →
      ∀ e, r = .error e → syncMain tok sdk store r = 1) := by
  refine ⟨?_, ?_, ?_⟩
  · rintro (h | h | h) <;> simp [syncMain, h]
  · intro h1 h2 h3 h4
    simp [syncMain, h1, h2, h3, h4]
  · intro h1 h2 h3 e h4
    simp [syncMain, h1, h2, h3, h4]

/-- Witness for C9: a missing token exits 1, a complete environment exits 0
on success and 1 on a failed synchronization. -/
theorem sync_script_exit_codes_witness :
    syncMain none (some "sdk") (some "kv") (.ok ()) = 1 ∧
    syncMain (some "tok") (some "sdk") (some "kv") (.ok ()) = 0 ∧
    syncMain (some "tok") (some "sdk") (some "kv") (.error "boom") = 1 :=
  ⟨(sync_script_exit_codes none (some "sdk") (some "kv") (.ok ())).1 (Or.inl rfl),
   (sync_script_exit_codes (some "tok") (some "sdk") (some "kv") (.ok ())).2.1
     rfl rfl rfl rfl,
   (sync_script_exit_codes (some "tok") (some "sdk") (some "kv") (.error "boom")).2.2
     rfl rfl rfl "boom" rfl⟩

/-- C8: With the KV store available, every request whose URL path is not
`/`, `/get-treatment` or `/status` is answered 404, and the `/status`
handler lists at most 10 stored keys. -/
theorem unmatched_path_404_status_limit (cfg : Config) (st : KVState) (path : String)
    (queryKey queryFlag : Option String) (sdkEval : Except String String)
    (h1 : path ≠ "/") (h2 : path ≠ "/get-treatment") (h3 : path ≠ "/status") :
    handleRequest cfg true st path queryKey queryFlag sdkEval =
      ⟨404, "text/plain", "Not found"⟩ ∧
    (statusKeys st).length ≤ 10 ∧
    (st.present = true → st.failList = false →
      handleStatus cfg st = ⟨200, "text/html; charset=utf-8", statusHtml cfg (statusKeys st)⟩) := by
  refine ⟨?_, ?_, ?_⟩
  · simp [handleRequest, h1, h2, h3]
  · by_cases hc : st.present && !st.failList
    · simp [statusKeys, kvList, hc, List.length_take]
    · simp [statusKeys, kvList, hc]
  · intro hp hf
    simp [handleStatus, statusKeys, kvList, hp, hf]

/-- Witness for C8 at the concrete unmatched path `/nope`. -/
theorem unmatched_path_404_status_limit_witness :
    handleRequest ⟨"sdk-key", "my-feature-flag", "split-storage", "user-123"⟩ true
        (okState [] []) "/nope" none none (.ok "on") =
      ⟨404, "text/plain", "Not found"⟩ ∧
    (statusKeys (okState [] [])).length ≤ 10 ∧
    ((okState [] []).present = true → (okState [] []).failList = false →
      handleStatus ⟨"sdk-key", "my-feature-flag", "split-storage", "user-123"⟩
          (okState [] []) =
        ⟨200, "text/html; charset=utf-8",
          statusHtml ⟨"sdk-key", "my-feature-flag", "split-storage", "user-123"⟩
            (statusKeys (okState [] []))⟩) :=
  unmatched_path_404_status_limit _ (okState [] []) "/nope" none none (.ok "on")
    (by decide) (by decide) (by decide)

/-- C5: In both adapters, `getMany` returns a list of exactly the input
length whose `i`-th element is the read of the `i`-th input key against the
entry store state — `null` when the key is absent or the read fails — so
results are aligned by input index independently of the completion order of
the parallel reads. -/
theorem getMany_results_aligned (st : KVState) (keys : List String) :
    (∃ res st2, SplitStorageWrapper.getMany st keys = .ok (res, st2) ∧
      res.length = keys.length ∧
      (∀ i, i < keys.length →
        res.getD i JsVal.null = (SplitStorageWrapper.getValue st (keys.getD i "")).1)) ∧
    (∃ res st2, createFastlyKVWrapper.getMany st keys = .ok (res, st2) ∧
      res.length = keys.length ∧
      (∀ i, i < keys.length →
        res.getD i JsVal.null = (createFastlyKVWrapper.getValue st (keys.getD i "")).1)) ∧
    (∀ k2, st.present = false ∨ st.failGet k2 = true ∨ alGet st.data k2 = none →
      (SplitStorageWrapper.getValue st k2).1 = JsVal.null ∧
      (createFastlyKVWrapper.getValue st k2).1 = JsVal.null) := by
  refine ⟨⟨keys.map (fun k => (SplitStorageWrapper.getValue st k).1), _, rfl,
      List.length_map _ _, ?_⟩,
    ⟨keys.map (fun k => (createFastlyKVWrapper.getValue st k).1), _, rfl,
      List.length_map _ _, ?_⟩, ?_⟩
  · intro i hi
    rw [List.getD_eq_getElem?_getD, List.getElem?_map, List.getElem?_eq_getElem hi,
      List.getD_eq_getElem?_getD, List.getElem?_eq_getElem hi]
    rfl
  · intro i hi
    rw [List.getD_eq_getElem?_getD, List.getElem?_map, List.getElem?_eq_getElem hi,
      List.getD_eq_getElem?_getD, List.getElem?_eq_getElem hi]
    rfl
  · intro k2 h
    rcases h with hp | hf | ha
    · constructor <;>
        simp [SplitStorageWrapper.getValue, createFastlyKVWrapper.getValue, kvGet, hp]
    · constructor <;>
        simp [SplitStorageWrapper.getValue, createFastlyKVWrapper.getValue, kvGet, hf]
    · by_cases hc : st.present && !st.failGet k2 <;> constructor <;>
        simp [SplitStorageWrapper.getValue, createFastlyKVWrapper.getValue, kvGet, hc, ha]

/-- Witness for C5 at a concrete store and key list: one present key, one
absent key, results aligned by index. -/
theorem getMany_results_aligned_witness :
    (∃ res st2,
      SplitStorageWrapper.getMany (okState [("a", JsVal.num 1)] []) ["a", "b"] =
        .ok (res, st2) ∧
      res.length = (["a", "b"] : List String).length ∧
      (∀ i, i < (["a", "b"] : List String).length →
        res.getD i JsVal.null =
          (SplitStorageWrapper.getValue (okState [("a", JsVal.num 1)] [])
            ((["a", "b"] : List String).getD i "")).1)) ∧
    (∃ res st2,
      createFastlyKVWrapper.getMany (okState [("a", JsVal.num 1)] []) ["a", "b"] =
        .ok (res, st2) ∧
      res.length = (["a", "b"] : List String).length ∧
      (∀ i, i < (["a", "b"] : List String).length →
        res.getD i JsVal.null =
          (createFastlyKVWrapper.getValue (okState [("a", JsVal.num 1)] [])
            ((["a", "b"] : List String).getD i "")).1)) ∧
    (∀ k2, (okState [("a", JsVal.num 1)] []).present = false ∨
        (okState [("a", JsVal.num 1)] []).failGet k2 = true ∨
        alGet (okState [("a", JsVal.num 1)] []).data k2 = none →
      (SplitStorageWrapper.getValue (okState [("a", JsVal.num 1)] []) k2).1 = JsVal.null ∧
      (createFastlyKVWrapper.getValue (okState [("a", JsVal.num 1)] []) k2).1 = JsVal.null) :=
  getMany_results_aligned (okState [("a", JsVal.num 1)] []) ["a", "b"]

/-- C3: `addItems` stores the duplicate-free union of the previously stored
set and the given items, repeating `addItems` with identical input leaves
the stored set unchanged, and concretely `addItems("s", [x,y])` then
`addItems("s", [y,z])` then `getItems("s")` yields exactly the set
`\x7bx,y,z\x7d`.  The purity hypothesis restricts the elements to JSON
values (no `NaN`), which is what the SDK stores. -/
theorem addItems_set_union_idempotent (data : List (String × JsVal)) (logs : List String)
    (k : String) (l items : List JsVal)
    (hpure : ∀ x ∈ l ++ items, jsonRoundTrip x = x) :
    (∃ st1, SplitStorageWrapper.addItems (okState (alSet data k (.arr l)) logs) k items =
        .ok ((), st1) ∧
      alGet st1.data k = some (.arr (dedupFirst (l ++ items))) ∧
      (∃ st2, SplitStorageWrapper.addItems st1 k items = .ok ((), st2) ∧
        alGet st2.data k = alGet st1.data k)) ∧
    (dedupFirst (l ++ items)).Nodup ∧
    (∀ x, x ∈ dedupFirst (l ++ items) ↔ x ∈ l ∨ x ∈ items) ∧
    (∃ st1 st2 r,
      SplitStorageWrapper.addItems (okState [] []) "s" [.str "x", .str "y"] =
        .ok ((), st1) ∧
      SplitStorageWrapper.addItems st1 "s" [.str "y", .str "z"] = .ok ((), st2) ∧
      SplitStorageWrapper.getItems st2 "s" = .ok (r, st2) ∧
      (∀ x, x ∈ r ↔ x ∈ ([.str "x", .str "y", .str "z"] : List JsVal))) := by
  have hd_pure : ∀ x ∈ dedupFirst (l ++ items), jsonRoundTrip x = x :=
    fun x hx => hpure x ((mem_dedupFirst _ x).mp hx)
  have hrt : jsonRoundTrip (.arr (dedupFirst (l ++ items))) =
      .arr (dedupFirst (l ++ items)) := by
    simp [jsonRoundTrip, jsonRoundTripList_eq_of_pure _ hd_pure]
  have hsub : ∀ x ∈ items, x ∈ dedupFirst (l ++ items) :=
    fun x hx => (mem_dedupFirst _ x).mpr (List.mem_append.mpr (Or.inr hx))
  have hidem : dedupFirst (dedupFirst (l ++ items) ++ items) = dedupFirst (l ++ items) :=
    dedupFirst_append_of_subset _ _ (nodup_dedupFirst _) hsub
  refine ⟨⟨{ okState (alSet data k (.arr l)) logs with
      data := alSet (alSet data k (.arr l)) k (.arr (dedupFirst (l ++ items))) },
      ?_, ?_, ?_⟩, nodup_dedupFirst _,
    fun x => (mem_dedupFirst _ x).trans List.mem_append, ?_⟩
  · unfold SplitStorageWrapper.addItems SplitStorageWrapper.getValue
      SplitStorageWrapper.setValue
    simp [kvGet, kvPut, okState, alGet_alSet_self, jsTruthy, jsSpread, hrt]
  · simp [alGet_alSet_self]
  · refine ⟨{ okState (alSet data k (.arr l)) logs with
      data := alSet (alSet (alSet data k (.arr l)) k (.arr (dedupFirst (l ++ items)))) k
        (.arr (dedupFirst (l ++ items))) }, ?_, ?_⟩
    · unfold SplitStorageWrapper.addItems SplitStorageWrapper.getValue
        SplitStorageWrapper.setValue
      simp [kvGet, kvPut, okState, alGet_alSet_self, jsTruthy, jsSpread, hidem, hrt]
    · simp [alGet_alSet_self]
  · exact ⟨_, _, _, rfl, rfl, rfl, fun x => Iff.rfl⟩

/-- Witness for C3 at concrete string sets. -/
theorem addItems_set_union_idempotent_witness :
    (∃ st1, SplitStorageWrapper.addItems
        (okState (alSet [] "s" (.arr [JsVal.str "a"])) []) "s" [JsVal.str "b"] =
        .ok ((), st1) ∧
      alGet st1.data "s" = some (.arr (dedupFirst ([JsVal.str "a"] ++ [JsVal.str "b"]))) ∧
      (∃ st2, SplitStorageWrapper.addItems st1 "s" [JsVal.str "b"] = .ok ((), st2) ∧
        alGet st2.data "s" = alGet st1.data "s")) ∧
    (dedupFirst ([JsVal.str "a"] ++ [JsVal.str "b"])).Nodup ∧
    (∀ x, x ∈ dedupFirst ([JsVal.str "a"] ++ [JsVal.str "b"]) ↔
      x ∈ [JsVal.str "a"] ∨ x ∈ [JsVal.str "b"]) ∧
    (∃ st1 st2 r,
      SplitStorageWrapper.addItems (okState [] []) "s" [.str "x", .str "y"] =
        .ok ((), st1) ∧
      SplitStorageWrapper.addItems st1 "s" [.str "y", .str "z"] = .ok ((), st2) ∧
      SplitStorageWrapper.getItems st2 "s" = .ok (r, st2) ∧
      (∀ x, x ∈ r ↔ x ∈ ([.str "x", .str "y", .str "z"] : List JsVal))) :=
  addItems_set_union_idempotent [] [] "s" [JsVal.str "a"] [JsVal.str "b"] (by decide)

/-- C1 counterexample: the shim operation `connect` raises (`throw new
Error("KV Store not provided")`) when the wrapper is constructed without a
store handle, so it is not the case that no shim operation ever raises. -/
theorem connect_raises_without_handle :
    SplitStorageWrapper.connect noStoreState = .error "KV Store not provided" :=
  rfl

/-- C1 amended: every shim operation other than `connect` never raises, for
any backend state and input; `connect` raises exactly when the store handle
is missing.  When the backing primitives all raise, each operation logs the
error and completes with its operation-specific fallback: `null` for
`get`/`getAndSet`, `false` for `set`/`del`/`itemContains`, an empty list for
`getKeysByPrefix`/`getItems`, a list of `null`s for `getMany`, the bare
increment `0 + n` for `incr` and `0 - n` for `decr`, and `undefined` for
`addItems`/`removeItems`. -/
theorem storage_operations_safe_defaults (st : KVState) (data : List (String × JsVal))
    (logs : List String) (k pre2 : String) (v item : JsVal) (items : List JsVal)
    (ks : List String) (n : Int) (cnt : Nat) :
    ((SplitStorageWrapper.get st k).isOk = true ∧
     (SplitStorageWrapper.set st k v).isOk = true ∧
     (SplitStorageWrapper.getAndSet st k v).isOk = true ∧
     (SplitStorageWrapper.del st k).isOk = true ∧
     ( SplitStorageWrapper.getKeysByPrefix st pre2).isOk = true ∧
     (SplitStorageWrapper.getMany st ks).isOk = true ∧
     (SplitStorageWrapper.incr st k n).isOk = true ∧
     (SplitStorageWrapper.decr st k n).isOk = true ∧
     (SplitStorageWrapper.itemContains st k item).isOk = true ∧
     (SplitStorageWrapper.addItems st k items).isOk = true ∧
     (SplitStorageWrapper.removeItems st k items).isOk = true ∧
     (SplitStorageWrapper.getItems st k).isOk = true ∧
     (SplitStorageWrapper.disconnect st).isOk = true ∧
     (SplitStorageWrapper.pushItems st k items).isOk = true ∧
     (SplitStorageWrapper.popItems st k cnt).isOk = true ∧
     (SplitStorageWrapper.getItemsCount st k).isOk = true ∧
     (SplitStorageWrapper.connect st).isOk = st.present) ∧
    ((∃ s2, SplitStorageWrapper.get (allFailState data logs) k = .ok (JsVal.null, s2) ∧
        logs.length < s2.log.length) ∧
     (∃ s2, SplitStorageWrapper.set (allFailState data logs) k v = .ok (false, s2) ∧
        logs.length < s2.log.length) ∧
     (∃ s2, SplitStorageWrapper.getAndSet (allFailState data logs) k v =
        .ok (JsVal.null, s2) ∧ logs.length < s2.log.length) ∧
     (∃ s2, SplitStorageWrapper.del (allFailState data logs) k = .ok (false, s2) ∧
        logs.length < s2.log.length) ∧
     (∃ s2, SplitStorageWrapper.getKeysByPrefix (allFailState data logs) pre2 =
        .ok ([], s2) ∧ logs.length < s2.log.length) ∧
     (∃ s2, SplitStorageWrapper.getMany (allFailState data logs) ks =
        .ok (ks.map (fun _ => JsVal.null), s2)) ∧
     (∃ s2, SplitStorageWrapper.incr (allFailState data logs) k n =
        .ok (.num (0 + n), s2) ∧ logs.length < s2.log.length) ∧
     (∃ s2, SplitStorageWrapper.decr (allFailState data logs) k n =
        .ok (.num (0 - n), s2) ∧ logs.length < s2.log.length) ∧
     (∃ s2, SplitStorageWrapper.itemContains (allFailState data logs) k item =
        .ok (false, s2) ∧ logs.length < s2.log.length) ∧
     (∃ s2, SplitStorageWrapper.addItems (allFailState data logs) k items =
        .ok ((), s2) ∧ logs.length < s2.log.length) ∧
     (∃ s2, SplitStorageWrapper.removeItems (allFailState data logs) k items =
        .ok ((), s2) ∧ logs.length < s2.log.length) ∧
     (∃ s2, SplitStorageWrapper.getItems (allFailState data logs) k = .ok ([], s2) ∧
        logs.length < s2.log.length)) := by
  constructor
  · refine ⟨rfl, rfl, rfl, ?_, ?_, rfl, rfl, rfl, ?_, ?_, ?_, ?_, rfl, rfl, rfl, rfl, ?_⟩
    · cases hd : kvDelete st k <;> simp [SplitStorageWrapper.del, hd, Except.isOk, Except.toBool]
    · cases hl : kvList st (some pre2) none <;>
        simp [SplitStorageWrapper.getKeysByPrefix, hl, Except.isOk, Except.toBool]
    · unfold SplitStorageWrapper.itemContains
      dsimp only
      split <;> simp [Except.isOk, Except.toBool]
    · unfold SplitStorageWrapper.addItems
      dsimp only
      split <;> simp [Except.isOk, Except.toBool]
    · unfold SplitStorageWrapper.removeItems
      dsimp only
      split <;> simp [Except.isOk, Except.toBool]
    · unfold SplitStorageWrapper.getItems
      dsimp only
      split <;> simp [Except.isOk, Except.toBool]
    · cases hp : st.present <;> simp [SplitStorageWrapper.connect, hp, Except.isOk, Except.toBool]
  · refine ⟨⟨_, rfl, ?_⟩, ⟨_, rfl, ?_⟩, ⟨_, rfl, ?_⟩, ⟨_, rfl, ?_⟩, ⟨_, rfl, ?_⟩,
      ⟨_, rfl⟩, ⟨_, rfl, ?_⟩, ⟨_, rfl, ?_⟩, ⟨_, rfl, ?_⟩, ⟨_, rfl, ?_⟩, ⟨_, rfl, ?_⟩,
      ⟨_, rfl, ?_⟩⟩ <;>
    simp [SplitStorageWrapper.getValue, SplitStorageWrapper.setValue, kvGet, kvPut,
      pushLog, allFailState]
